import Mathlib

/-!
Verification of the retrieval engine of the Smart Incident Manager backend
(`backend/rag.py`): data cleaning, chunk building, query parsing, reranking,
deduplication and the retrieval fallback policy.

The Python code is shallowly embedded: pure functions become Lean functions on
`List Char`/`String`, `Nat`, `Int` and `ℚ`; the vector store is modelled by the
lists of hits its two similarity queries return (a filtered and an unfiltered
query), with `Except` capturing a query the store rejects; `retrieve`'s only
`raise` becomes the `Except.error` branch of `retrieveModel`.  String handling
models Python's behaviour on ASCII text (`str.lower`, `str.title`, `str.strip`,
substring membership, the `\b(201\d|202\d)\b` regular expression).
-/

namespace Rag

/-! ## ASCII string utilities (models of the Python string primitives) -/

/-- Model of `str.lower` for one ASCII character. -/
def charLower (c : Char) : Char :=
  if 'A' ≤ c ∧ c ≤ 'Z' then Char.ofNat (c.toNat + 32) else c

/-- Model of `str.lower` (ASCII). -/
def strLower (s : String) : String :=
  String.mk (s.data.map charLower)

/-- Does `n` occur at the head of `h`?  Helper for substring search. -/
def subAt : List Char → List Char → Bool
  | [], _ => true
  | _ :: _, [] => false
  | a :: as, b :: bs => a == b && subAt as bs

/-- Does `n` occur anywhere in `h`?  Model of Python's `n in h` on strings. -/
def hasSubChars (n : List Char) : List Char → Bool
  | [] => subAt n []
  | c :: cs => subAt n (c :: cs) || hasSubChars n cs

/-- Model of Python's substring test `needle in haystack`. -/
def strHasSub (needle haystack : String) : Bool :=
  hasSubChars needle.data haystack.data

/-- Model of `str.title` on character lists: an alphabetic character is
uppercased when the previous character was not alphabetic, lowercased
otherwise; other characters pass through. -/
def pyTitleAux : Bool → List Char → List Char
  | _, [] => []
  | prevAlpha, c :: cs =>
    if c.isAlpha then
      (if prevAlpha then charLower c else c.toUpper) :: pyTitleAux true cs
    else
      c :: pyTitleAux false cs

/-- Model of Python's `str.title` (ASCII). -/
def pyTitle (s : String) : String :=
  String.mk (pyTitleAux false s.data)

/-- Model of Python's `str.strip()`: whitespace removed from both ends. -/
def pyStrip (s : String) : String :=
  String.mk (((s.data.dropWhile Char.isWhitespace).reverse.dropWhile
    Char.isWhitespace).reverse)

/-- Maximal runs of lowercase alphabetic characters: model of
`re.findall(r"[a-z]+", s)` applied to an already lowercased string.
The first argument accumulates the current run in reverse. -/
def alphaRunsAux : List Char → List Char → List String
  | acc, [] => if acc.isEmpty then [] else [String.mk acc.reverse]
  | acc, c :: cs =>
    if 'a' ≤ c ∧ c ≤ 'z' then alphaRunsAux (c :: acc) cs
    else if acc.isEmpty then alphaRunsAux [] cs
    else String.mk acc.reverse :: alphaRunsAux [] cs

/-- Model of `re.findall(r"[a-z]+", s)`. -/
def alphaRuns (s : String) : List String :=
  alphaRunsAux [] s.data

/-- Splitter for Python's `str.split()`: the accumulator holds the current
word in reverse; whitespace runs close a word, empty pieces are dropped. -/
def splitWsAux : List Char → List Char → List String
  | acc, [] => if acc.isEmpty then [] else [String.mk acc.reverse]
  | acc, c :: cs =>
    if c.isWhitespace then
      if acc.isEmpty then splitWsAux [] cs
      else String.mk acc.reverse :: splitWsAux [] cs
    else splitWsAux (c :: acc) cs

/-- Model of Python's `str.split()` (split on whitespace runs, drop empties). -/
def splitWs (s : String) : List String :=
  splitWsAux [] s.data

/-- A regex word character (`\w`), ASCII model: alphanumeric or underscore. -/
def isWordChar (c : Char) : Bool :=
  c.isAlphanum || c == '_'

/-- `\b` holds against a neighbouring position that is absent or non-word. -/
def boundaryOk : Option Char → Bool
  | none => true
  | some c => !isWordChar c

/-- The four characters match `201\d|202\d`. -/
def yearDigits (c0 c1 c2 c3 : Char) : Bool :=
  c0 == '2' && c1 == '0' && (c2 == '1' || c2 == '2') && c3.isDigit

/-- Scanner for `re.findall(r"\b(201\d|202\d)\b", s)`.  `prev` is the character
before the current position (`none` at the start of the string).  On a match
the scan resumes after the matched four characters, as `findall` does. -/
def findYearsAux : Option Char → List Char → List String
  | _, [] => []
  | prev, c :: c1 :: c2 :: c3 :: rest =>
    if boundaryOk prev && yearDigits c c1 c2 c3 && boundaryOk rest.head? then
      String.mk [c, c1, c2, c3] :: findYearsAux (some c3) rest
    else
      findYearsAux (some c) (c1 :: c2 :: c3 :: rest)
  | _, c :: cs => findYearsAux (some c) cs

/-- All matches of `YEAR_RE = re.compile(r"\b(201\d|202\d)\b")` in `s`. -/
def findYears (s : String) : List String :=
  findYearsAux none s.data

/-- Decimal parser for a matched year string: model of Python's `int(y)` on a
digit string. -/
def digitsToNatAux : Nat → List Char → Nat
  | acc, [] => acc
  | acc, c :: cs => digitsToNatAux (acc * 10 + (c.toNat - '0'.toNat)) cs

/-- Numeric value of a matched year string (always four digits). -/
def yearToNat (s : String) : Nat :=
  digitsToNatAux 0 s.data

/-- First-occurrence deduplication with an explicit seen-set accumulator (the
element set of Python's `set(...)`, listed in first-seen order). -/
def dedupSeen {α : Type} [DecidableEq α] (seen : List α) : List α → List α
  | [] => []
  | a :: t =>
    if seen.contains a then dedupSeen seen t
    else a :: dedupSeen (a :: seen) t

/-- First-occurrence deduplication (the element set of Python's `set(...)`,
listed in first-seen order). -/
def dedupKeepFirst {α : Type} [DecidableEq α] (l : List α) : List α :=
  dedupSeen [] l

/-- Model of Python's `sorted(set(l))` for naturals. -/
def sortedDistinct (l : List Nat) : List Nat :=
  (dedupKeepFirst l).mergeSort (fun a b => decide (a ≤ b))

/-- Model of Python's `sorted(set(l))` for integers. -/
def sortedDistinctInt (l : List Int) : List Int :=
  (dedupKeepFirst l).mergeSort (fun a b => decide (a ≤ b))

/-! ## Data model

`IncidentRecord` is one row of the dataframe produced by `load_and_clean`,
restricted to the columns the chunk builder and the claims read.  `Hit` is one
retrieval result `{text, metadata, score}`; its metadata is restricted to the
two fields the reranker and the fallback policy read (`report_id`, `section`).
Scores are embedded as exact rationals `ℚ`. -/

structure HitMeta where
  report_id : String
  sectionName : String
deriving Repr, DecidableEq

structure Hit where
  text : String
  metadata : HitMeta
  score : ℚ
deriving Repr, DecidableEq

structure IncidentRecord where
  report_id : String
  title_clean : String
  severity_clean : String
  category_clean : String
  year : Int
  risk_label : String
  city_clean : String
  country_clean : String
  classification : String
  injury_clean : String
  what_happened : String
  why_did_it_happen : String
  causal_factors : String
  lessons_to_prevent : String
  is_major : Nat
  is_high_risk : Nat
  has_injury : Nat
  is_near_miss : Nat
deriving Repr, DecidableEq

/-- The flat metadata record attached to every chunk by `build_chunks`. -/
structure ChunkMeta where
  report_id : String
  title : String
  severity : String
  category : String
  country : String
  city : String
  location : String
  year : String
  risk : String
  sectionName : String
  is_major : Nat
  is_high_risk : Nat
  has_injury : Nat
  is_near_miss : Nat
  injury : String
  classification : String
deriving Repr, DecidableEq

structure Chunk where
  chunk_id : String
  text : String
  meta : ChunkMeta
deriving Repr, DecidableEq

/-- One equality predicate of a structured metadata filter (the single-key
dicts the parser appends to `filters_list`). -/
inductive FilterAtom where
  | city : String → FilterAtom
  | country : String → FilterAtom
  | sev : String → FilterAtom
  | isHighRisk : Nat → FilterAtom
  | year : String → FilterAtom
deriving Repr, DecidableEq

/-- The final filter: a single predicate or an `$and` conjunction. -/
inductive QueryFilter where
  | single : FilterAtom → QueryFilter
  | conj : List FilterAtom → QueryFilter
deriving Repr, DecidableEq

/-- The predicates contained in an optional filter. -/
def filterAtoms : Option QueryFilter → List FilterAtom
  | none => []
  | some (.single a) => [a]
  | some (.conj l) => l

/-- The `extracted` facts dict of `parse_query` (absent keys are `none`/`[]`). -/
structure Parsed where
  location : Option String := none
  severity : Option String := none
  yearsMentioned : List Nat := []
  year : Option String := none
deriving Repr, DecidableEq

/-! ## Constants from `rag.py` -/

def SECTIONS : List (String × String) :=
  [("What Happened", "what_happened"),
   ("Root Cause", "why_did_it_happen"),
   ("Causal Factors", "causal_factors"),
   ("Lessons & Prevention", "lessons_to_prevent")]

def LOCATION_MAP : List (String × FilterAtom) :=
  [("vancouver", .city "Vancouver"),
   ("trinidad tobago", .city "Trinidad Tobago"),
   ("trinidad", .city "Trinidad Tobago"),
   ("tobago", .city "Trinidad Tobago"),
   ("working from home", .city "Working Home"),
   ("work from home", .city "Working Home"),
   ("wfh", .city "Working Home"),
   ("remote", .city "Working Home"),
   ("brussels", .city "Brussels"),
   ("egypt", .country "Egypt"),
   ("new zealand", .country "New Zealand"),
   ("chile", .country "Chile"),
   ("usa", .country "Usa"),
   ("united states", .country "Usa"),
   ("canada", .country "Canada")]

def SEVERITY_MAP : List (String × FilterAtom) :=
  [("major", .sev "Major"),
   ("serious", .sev "Serious"),
   ("potentially significant", .sev "Potentially Significant"),
   ("near miss", .sev "Near Miss"),
   ("minor", .sev "Minor"),
   ("high risk", .isHighRisk 1),
   ("high-risk", .isHighRisk 1)]

def COMPARISON_KEYWORDS : List String :=
  ["compare", "versus", " vs ", "difference", "before", "after",
   "then look", "changed", "trend", "between"]

def DOMAIN_EXPANSIONS : List (List String × String) :=
  [(["incident", "accident", "event", "what happened"],
    "safety incident near miss accident event occurrence"),
   (["cause", "why", "root", "reason"],
    "root cause failure reason contributing factor"),
   (["prevent", "lesson", "avoid", "recommendation", "action"],
    "lessons learned prevention corrective action recommendation"),
   (["contractor", "worker", "employee", "staff", "crew"],
    "contractor worker employee personnel crew technician"),
   (["ai", "machine learning", "model", "algorithm", "predictive"],
    "AI artificial intelligence machine learning predictive model failure"),
   (["cyber", "hack", "breach", "digital", "unauthorized"],
    "cybersecurity unauthorized access breach digital intrusion"),
   (["chemical", "vapor", "spill", "release", "exposure"],
    "chemical vapor release spill exposure toxic hazardous"),
   (["confined", "vessel", "tank", "entry", "space"],
    "confined space entry vessel permit work atmosphere"),
   (["valve", "isolation", "pressure", "line", "pipe", "fitting"],
    "valve isolation pressure line pipe fitting maintenance"),
   (["fall", "electric", "shock", "arc", "height", "ladder"],
    "fall height electrical shock arc flash energy"),
   (["trend", "change", "increase", "grow", "pattern", "over time"],
    "trend change increase growth pattern year over year comparison"),
   (["compare", "difference", "versus", "vs", "between", "before", "after"],
    "compare contrast difference versus comparison analysis period"),
   (["pre-shift", "briefing", "brief", "morning", "start of shift", "today"],
    "pre-shift briefing safety hazard watch for alert awareness"),
   (["pattern", "repeat", "recurring", "common", "frequent", "again"],
    "recurring pattern repeat systemic common frequent multiple incidents"),
   (["worst", "severe", "serious", "critical", "major", "priority"],
    "major serious critical high risk severe priority escalation")]

def FACTUAL_KEYWORDS : List String :=
  ["what", "happened", "describe", "explain", "detail",
   "incident", "occurred", "event", "accident"]

def LESSON_KEYWORDS : List String :=
  ["prevent", "lesson", "recommendation", "avoid", "action",
   "corrective", "improve", "future", "should", "next time"]

def STOPWORDS : List String :=
  ["the", "a", "an", "is", "in", "of", "to", "and", "for",
   "on", "at", "by", "with", "this", "that", "are", "was",
   "were", "be", "been", "have", "has", "had", "do", "did",
   "what", "how", "why", "when", "where", "which", "who"]

/-! ## Data cleaning (`load_and_clean`, the derived injury columns) -/

/-- `injury_clean`: raw injury-category values longer than 60 characters become
`"Medical Treatment"`, all others are title-cased. -/
def injuryClean (x : String) : String :=
  if 60 < x.length then "Medical Treatment" else pyTitle x

/-- `has_injury`: `(~df["injury_clean"].isin(["Injury"])).astype(int)`. -/
def hasInjury (x : String) : Nat :=
  if injuryClean x = "Injury" then 0 else 1

/-! ## Chunking (`_build_location`, `build_chunks`) -/

/-- The narrative column of a record named by a `SECTIONS` source-field key. -/
def sectionField (r : IncidentRecord) (col : String) : String :=
  if col = "what_happened" then r.what_happened
  else if col = "why_did_it_happen" then r.why_did_it_happen
  else if col = "causal_factors" then r.causal_factors
  else if col = "lessons_to_prevent" then r.lessons_to_prevent
  else ""

/-- Model of `_build_location`. -/
def buildLocation (r : IncidentRecord) : String :=
  let city := pyStrip r.city_clean
  let country := pyStrip r.country_clean
  if city ≠ "" ∧ city ≠ "Unknown" ∧ city ≠ "Nan" then
    if country ≠ "Unknown" ∧ country ≠ "" then city ++ ", " ++ country else city
  else if country ≠ "Unknown" then country else "Unknown Location"

/-- The bracketed provenance header embedded in every chunk. -/
def chunkHeader (r : IncidentRecord) : String :=
  "[Record #" ++ r.report_id ++ " | " ++ r.severity_clean ++ " | " ++
    r.category_clean ++ " | " ++ buildLocation r ++ " | " ++ toString r.year ++
    " | Risk:" ++ r.risk_label ++ "]"

/-- The chunk `build_chunks` emits for one `(section_label, source_field)`
pair, or `none` when the trimmed narrative is shorter than 20 characters. -/
def chunkFor (r : IncidentRecord) (sc : String × String) : Option Chunk :=
  let text := pyStrip (sectionField r sc.2)
  if text.length < 20 then none
  else some
    { chunk_id := "rec" ++ r.report_id ++ "_" ++ sc.2
      text := chunkHeader r ++ "\n" ++ "Title: " ++ r.title_clean ++ "\n" ++
        "Location: " ++ buildLocation r ++ "\n" ++ "Section: " ++ sc.1 ++
        "\n\n" ++ text
      meta :=
        { report_id := r.report_id
          title := r.title_clean
          severity := r.severity_clean
          category := r.category_clean
          country := r.country_clean
          city := r.city_clean
          location := buildLocation r
          year := toString r.year
          risk := r.risk_label
          sectionName := sc.1
          is_major := r.is_major
          is_high_risk := r.is_high_risk
          has_injury := r.has_injury
          is_near_miss := r.is_near_miss
          injury := r.injury_clean
          classification := r.classification } }

/-- All chunks of one record, in the fixed `SECTIONS` order. -/
def recordChunks (r : IncidentRecord) : List Chunk :=
  SECTIONS.filterMap (chunkFor r)

/-- Model of `build_chunks` over the whole dataframe (the Python code keeps
three parallel lists `ids`, `texts`, `metas`; the embedding zips them into one
list of `Chunk`s). -/
def buildChunks (df : List IncidentRecord) : List Chunk :=
  df.flatMap recordChunks

/-! ## Query parsing (`parse_query`) -/

/-- Comparison-intent detection over the lowercased query. -/
def isComparison (q : String) : Bool :=
  COMPARISON_KEYWORDS.any (fun kw => strHasSub kw q)

/-- First location phrase contained in the lowercased query (the `break` in
the Python loop makes it first-match-wins in table order). -/
def locFirstMatch (q : String) : Option (String × FilterAtom) :=
  LOCATION_MAP.find? (fun p => strHasSub p.1 q)

/-- First severity phrase contained in the lowercased query. -/
def sevFirstMatch (q : String) : Option (String × FilterAtom) :=
  SEVERITY_MAP.find? (fun p => strHasSub p.1 q)

/-- Domain-vocabulary expansion of the query.  Python joins `set(expansions)`
in hash order; the embedding keeps first-seen order (the expansion strings are
pairwise distinct, so the joined word-set is the same). -/
def expandQuery (query q : String) : String :=
  let exps :=
    (DOMAIN_EXPANSIONS.filter (fun e => e.1.any (fun kw => strHasSub kw q))).map
      (fun e => e.2)
  if exps.isEmpty then query
  else query ++ " " ++ String.intercalate " " (dedupKeepFirst exps)

/-- The final-filter assembly: no predicate, a single predicate, or an `$and`
conjunction of 2+ predicates. -/
def mkFilter : List FilterAtom → Option QueryFilter
  | [] => none
  | [a] => some (.single a)
  | l => some (.conj l)

/-- Model of `parse_query`: returns the expanded query, the optional
structured filter, and the extracted facts. -/
def parseQuery (query : String) : String × Option QueryFilter × Parsed :=
  let q := strLower query
  let cmp := isComparison q
  let locM := if cmp then none else locFirstMatch q
  let sevM := if cmp then none else sevFirstMatch q
  let years := findYears q
  let yearAtoms : List FilterAtom :=
    match years, cmp with
    | [y], false => [.year y]
    | _, _ => []
  let filtersList : List FilterAtom :=
    (locM.map (fun p => p.2)).toList ++ (sevM.map (fun p => p.2)).toList ++ yearAtoms
  let finalFilter : Option QueryFilter := mkFilter filtersList
  let parsed : Parsed :=
    { location := locM.map (fun p => pyTitle p.1)
      severity := sevM.map (fun p => pyTitle p.1)
      yearsMentioned := sortedDistinct (years.map yearToNat)
      year := match years, cmp with
              | [y], false => some y
              | _, _ => none }
  (expandQuery query q, finalFilter, parsed)

/-! ## Reranking and deduplication (`_rerank_and_dedup` and helpers) -/

/-- The meaningful query words: lowercase alphabetic runs, stop words and
words of length ≤ 2 dropped, as a set (first-seen order). -/
def queryWords (qLower : String) : List String :=
  dedupKeepFirst ((alphaRuns qLower).filter
    (fun w => !(STOPWORDS.contains w) && decide (2 < w.length)))

/-- Model of `_keyword_overlap_score`: fraction of distinct meaningful query
words that occur literally in the chunk text, 0 for near-empty queries. -/
def keywordOverlapScore (qWords : List String) (chunkText : String) : ℚ :=
  if qWords.length < 2 then 0
  else ((qWords.countP (fun w => strHasSub w (strLower chunkText)) : Nat) : ℚ) /
    ((qWords.length : Nat) : ℚ)

/-- Model of `_section_preference_boost`. -/
def sectionBoost (qLower sectionLabel : String) : ℚ :=
  let qw := splitWs qLower
  if sectionLabel == "What Happened" && qw.any (fun w => FACTUAL_KEYWORDS.contains w) then
    1 / 20
  else if sectionLabel == "Lessons & Prevention" && qw.any (fun w => LESSON_KEYWORDS.contains w) then
    1 / 20
  else 0

/-- Model of Python's `round(x, 4)` (round to 4 decimal places; ties are
modelled half-up via Mathlib's `round`). -/
def round4 (x : ℚ) : ℚ :=
  ((round (x * 10000) : ℤ) : ℚ) / 10000

/-- The reranked final score `0.70*semantic + 0.30*keyword + boost`, rounded
to 4 decimals. -/
def finalScore (sem kw boost : ℚ) : ℚ :=
  round4 (7 / 10 * sem + 3 / 10 * kw + boost)

/-- One candidate with its score replaced by the reranked final score. -/
def rescoreHit (qWords : List String) (qLower : String) (h : Hit) : Hit :=
  { h with
    score := finalScore h.score (keywordOverlapScore qWords h.text)
      (sectionBoost qLower h.metadata.sectionName) }

/-- The `scored` list of `_rerank_and_dedup`. -/
def rescoreAll (hits : List Hit) (query : String) : List Hit :=
  hits.map (rescoreHit (queryWords (strLower query)) (strLower query))

/-- Model of Python's stable `sorted(·, key=score, reverse=True)`. -/
def sortDesc (l : List Hit) : List Hit :=
  l.mergeSort (fun a b => decide (b.score ≤ a.score))

/-- The loop over the insertion-ordered dict `seen_records`: `seen` is the set
of record ids already taken; a hit with a fresh id is kept, later hits with
the same id are dropped (first seen wins). -/
def dedupFirstAux (seen : List String) : List Hit → List Hit
  | [] => []
  | h :: t =>
    if seen.contains h.metadata.report_id then dedupFirstAux seen t
    else h :: dedupFirstAux (h.metadata.report_id :: seen) t

/-- First-seen-wins deduplication by `report_id`. -/
def dedupFirst (l : List Hit) : List Hit :=
  dedupFirstAux [] l

/-- Model of `_rerank_and_dedup`: rescore, sort descending (stable), dedup by
record id keeping the first (best) hit, sort the kept hits descending again,
truncate to `n_results`. -/
def rerankAndDedup (hits : List Hit) (query : String) (nResults : Nat) : List Hit :=
  (sortDesc (dedupFirst (sortDesc (rescoreAll hits query)))).take nResults

/-! ## Retrieval (`retrieve`) -/

/-- The vector store as seen by one `retrieve` call: what its filtered and its
unfiltered similarity query (both asked for `candidates_n` results) return.
`Except.error` is a query the store rejects (the caught exception branches). -/
structure Store where
  filteredResult : Except Unit (List Hit)
  unfilteredResult : Except Unit (List Hit)
deriving Repr

/-- A store response with the caught-exception branch applied: a rejected
query contributes no hits. -/
def hitsOf : Except Unit (List Hit) → List Hit
  | .ok l => l
  | .error _ => []

/-- `filtered_hits`: empty when no filter is present (the filtered query is
not even issued), empty when the store rejects the filtered query. -/
def filteredHitsOf (st : Store) : Option QueryFilter → List Hit
  | some _ => hitsOf st.filteredResult
  | none => []

/-- `unfiltered_hits` with the caught-exception branch applied. -/
def unfilteredHitsOf (st : Store) : List Hit :=
  hitsOf st.unfilteredResult

/-- Python list slicing `l[:k]` for a possibly negative bound. -/
def pyTake (l : List Hit) (k : Int) : List Hit :=
  if 0 ≤ k then l.take k.toNat else l.take (l.length - (-k).toNat)

/-- The candidate pool handed to reranking: the filtered hits when there are
at least 3; otherwise the blend of filtered hits (priority) and unfiltered
hits with an unseen record id, filled up to `candidates_n`; the unfiltered
hits alone when there are no filtered hits. -/
def candidatesOf (st : Store) (filters : Option QueryFilter) (candidatesN : Nat) : List Hit :=
  let fh := filteredHitsOf st filters
  if fh.length < 3 then
    if fh.isEmpty then unfilteredHitsOf st
    else
      let fids := fh.map (fun h => h.metadata.report_id)
      let extra := (unfilteredHitsOf st).filter
        (fun h => !(fids.contains h.metadata.report_id))
      fh ++ pyTake extra ((candidatesN : Int) - (fh.length : Int))
  else fh

/-- Model of `retrieve`.  The only raised error is the uninitialized-store
`RuntimeError`; every other path returns `Except.ok`. -/
def retrieveModel (store : Option Store) (query : String) (nResults : Nat)
    (filters0 : Option QueryFilter) (autoParse : Bool) :
    Except String (List Hit × Parsed) :=
  match store with
  | none => .error "RAG index not initialized. Call initialize() first."
  | some st =>
    let candidatesN := min (nResults * 3) 50
    let expanded := if autoParse then (parseQuery query).1 else query
    let parsedInfo := if autoParse then (parseQuery query).2.2 else {}
    let filters := if autoParse && filters0.isNone then (parseQuery query).2.1 else filters0
    let candidates := candidatesOf st filters candidatesN
    if candidates.isEmpty then .ok ([], parsedInfo)
    else .ok (rerankAndDedup candidates expanded nResults, parsedInfo)

/-! ## Index statistics (`get_index_stats`) -/

/-- The stats dict (`none`-collection keys that are absent in the Python dict
are embedded as `[]`). -/
structure Stats where
  status : String
  chunks : Nat
  records : Nat
  years : List Int
  severityDist : List (String × Nat)
deriving Repr, DecidableEq

/-- Model of pandas `value_counts().to_dict()`: distinct values with their
multiplicities, in descending count order (stable on first occurrence). -/
def valueCounts (l : List String) : List (String × Nat) :=
  ((dedupKeepFirst l).map (fun s => (s, l.count s))).mergeSort
    (fun a b => decide (b.2 ≤ a.2))

/-- Model of `get_index_stats`; `coll` is the chunk count of the active
collection when one exists. -/
def getIndexStats (coll : Option Nat) (df : List IncidentRecord) : Stats :=
  match coll with
  | none =>
    { status := "not_initialized", chunks := 0, records := 0,
      years := [], severityDist := [] }
  | some count =>
    { status := "ready", chunks := count, records := df.length,
      years := sortedDistinctInt (df.map (fun r => r.year)),
      severityDist := valueCounts (df.map (fun r => r.severity_clean)) }

/-! ## Sample inputs used by the concrete witnesses -/

def sampleRecord : IncidentRecord :=
  { report_id := "7", title_clean := "Valve Failure", severity_clean := "Major",
    category_clean := "Operations", year := 2023, risk_label := "High",
    city_clean := "Vancouver", country_clean := "Canada", classification := "",
    injury_clean := "Injury",
    what_happened := "A pressurized valve failed during maintenance.",
    why_did_it_happen := "short", causal_factors := "", lessons_to_prevent := "",
    is_major := 1, is_high_risk := 1, has_injury := 0, is_near_miss := 0 }

def sampleHitA : Hit :=
  { text := "alpha report one", metadata := { report_id := "1", sectionName := "Root Cause" },
    score := 9 / 10 }

def sampleHitB : Hit :=
  { text := "alpha report two", metadata := { report_id := "1", sectionName := "Root Cause" },
    score := 8 / 10 }

def sampleHitC : Hit :=
  { text := "beta record", metadata := { report_id := "2", sectionName := "Root Cause" },
    score := 1 / 2 }

/-- The hit `sampleHitA` becomes after reranking against `"alpha report"`:
`0.7 * 0.9 + 0.3 * 1 = 0.93`, no section boost. -/
def sampleWinner : Hit :=
  { text := "alpha report one", metadata := { report_id := "1", sectionName := "Root Cause" },
    score := 93 / 100 }

def sampleHitU1 : Hit :=
  { text := "unfiltered one", metadata := { report_id := "1", sectionName := "Root Cause" },
    score := 1 }

def sampleHitU2 : Hit :=
  { text := "unfiltered two", metadata := { report_id := "2", sectionName := "Root Cause" },
    score := 0 }

def sampleHitU3 : Hit :=
  { text := "unfiltered three", metadata := { report_id := "3", sectionName := "Root Cause" },
    score := 0 }

def sampleStore : Store :=
  { filteredResult := .ok [sampleHitU1],
    unfilteredResult := .ok [sampleHitU1, sampleHitU2, sampleHitU3] }

/-- A hit whose cosine distance is 3/2 (a legitimate value in the store's
[0, 2] cosine-distance range), so its reported similarity `1 − distance`
is negative. -/
def sampleNegHit : Hit :=
  { text := "irrelevant text", metadata := { report_id := "9", sectionName := "Root Cause" },
    score := 1 - 3 / 2 }

/-! ## Helper lemmas -/

theorem string_append_cancel_left {a b c : String} (h : a ++ b = a ++ c) : b = c := by
  apply String.ext
  have hd := congrArg String.data h
  rw [String.data_append, String.data_append] at hd
  exact List.append_cancel_left hd

theorem filterAtoms_mkFilter : ∀ l : List FilterAtom, filterAtoms (mkFilter l) = l
  | [] => rfl
  | [_] => rfl
  | _ :: _ :: _ => rfl

theorem mem_dedupSeen {α : Type} [DecidableEq α] (a : α) :
    ∀ (l : List α) (seen : List α), a ∈ dedupSeen seen l ↔ a ∈ l ∧ a ∉ seen := by
  intro l
  induction l with
  | nil => intro seen; simp [dedupSeen]
  | cons x t ih =>
    intro seen
    rw [dedupSeen]
    by_cases hx : seen.contains x
    · rw [if_pos hx]
      rw [ih]
      constructor
      · rintro ⟨ht, hs⟩
        exact ⟨List.mem_cons_of_mem _ ht, hs⟩
      · rintro ⟨hxt, hs⟩
        rcases List.mem_cons.mp hxt with rfl | ht
        · exact absurd (by simpa using hx) hs
        · exact ⟨ht, hs⟩
    · rw [if_neg hx]
      constructor
      · intro hmem
        rcases List.mem_cons.mp hmem with rfl | hmem2
        · exact ⟨List.mem_cons_self _ _, by simpa using hx⟩
        · rcases (ih _).mp hmem2 with ⟨ht, hs⟩
          exact ⟨List.mem_cons_of_mem _ ht,
            fun hseen => hs (List.mem_cons_of_mem _ hseen)⟩
      · rintro ⟨hxt, hs⟩
        rcases List.mem_cons.mp hxt with rfl | ht
        · exact List.mem_cons_self _ _
        · by_cases hax : a = x
          · subst hax
            exact List.mem_cons_self _ _
          · refine List.mem_cons_of_mem _ ((ih _).mpr ⟨ht, ?_⟩)
            intro hmem
            rcases List.mem_cons.mp hmem with h1 | h2
            · exact hax h1
            · exact hs h2

theorem mem_dedupKeepFirst {α : Type} [DecidableEq α] (a : α) (l : List α) :
    a ∈ dedupKeepFirst l ↔ a ∈ l := by
  rw [dedupKeepFirst, mem_dedupSeen]
  simp

theorem mem_sortedDistinct (a : Nat) (l : List Nat) :
    a ∈ sortedDistinct l ↔ a ∈ l := by
  rw [sortedDistinct, List.mem_mergeSort]
  exact mem_dedupKeepFirst a l

theorem mem_sortDesc {h : Hit} {l : List Hit} : h ∈ sortDesc l ↔ h ∈ l := by
  rw [sortDesc]
  exact List.mem_mergeSort

theorem sortDesc_pairwise (l : List Hit) :
    (sortDesc l).Pairwise (fun a b => b.score ≤ a.score) := by
  have h := @List.sorted_mergeSort Hit (fun a b : Hit => decide (b.score ≤ a.score))
    (fun a b c hab hbc => by
      simp only [decide_eq_true_eq] at *
      exact le_trans hbc hab)
    (fun a b => by
      simp only [Bool.or_eq_true, decide_eq_true_eq]
      exact le_total b.score a.score)
    l
  exact h.imp (fun hab => by simpa using hab)

theorem dedupFirstAux_sublist : ∀ (l : List Hit) (seen : List String),
    (dedupFirstAux seen l).Sublist l := by
  intro l
  induction l with
  | nil => intro seen; simp [dedupFirstAux]
  | cons x t ih =>
    intro seen
    rw [dedupFirstAux]
    by_cases hx : seen.contains x.metadata.report_id
    · rw [if_pos hx]
      exact (ih seen).cons x
    · rw [if_neg hx]
      exact (ih _).cons₂ x

theorem rid_not_seen_of_mem_dedupFirstAux : ∀ (l : List Hit) (seen : List String)
    (h : Hit), h ∈ dedupFirstAux seen l → h.metadata.report_id ∉ seen := by
  intro l
  induction l with
  | nil => intro seen h hm; simp [dedupFirstAux] at hm
  | cons x t ih =>
    intro seen h hm
    rw [dedupFirstAux] at hm
    by_cases hx : seen.contains x.metadata.report_id
    · rw [if_pos hx] at hm
      exact ih seen h hm
    · rw [if_neg hx] at hm
      rcases List.mem_cons.mp hm with rfl | hm2
      · simpa using hx
      · have := ih _ h hm2
        exact fun hs => this (List.mem_cons_of_mem _ hs)

theorem dedupFirstAux_pairwise : ∀ (l : List Hit) (seen : List String),
    (dedupFirstAux seen l).Pairwise
      (fun a b => a.metadata.report_id ≠ b.metadata.report_id) := by
  intro l
  induction l with
  | nil => intro seen; simp [dedupFirstAux]
  | cons x t ih =>
    intro seen
    rw [dedupFirstAux]
    by_cases hx : seen.contains x.metadata.report_id
    · rw [if_pos hx]
      exact ih seen
    · rw [if_neg hx]
      refine List.Pairwise.cons ?_ (ih _)
      intro b hb
      have := rid_not_seen_of_mem_dedupFirstAux _ _ b hb
      exact fun e => this (e ▸ List.mem_cons_self _ _)

theorem dedupFirst_pairwise (l : List Hit) :
    (dedupFirst l).Pairwise
      (fun a b => a.metadata.report_id ≠ b.metadata.report_id) :=
  dedupFirstAux_pairwise l []

theorem head_filter_of_mem_dedupFirstAux : ∀ (l : List Hit) (seen : List String)
    (h : Hit), h ∈ dedupFirstAux seen l →
    (l.filter (fun g => decide (g.metadata.report_id = h.metadata.report_id))).head? =
      some h := by
  intro l
  induction l with
  | nil => intro seen h hm; simp [dedupFirstAux] at hm
  | cons x t ih =>
    intro seen h hm
    rw [dedupFirstAux] at hm
    by_cases hx : seen.contains x.metadata.report_id
    · rw [if_pos hx] at hm
      have hns := rid_not_seen_of_mem_dedupFirstAux _ _ h hm
      have hne : x.metadata.report_id ≠ h.metadata.report_id := by
        intro e
        exact hns (e ▸ (by simpa using hx))
      rw [List.filter_cons, if_neg (by simpa using hne)]
      exact ih seen h hm
    · rw [if_neg hx] at hm
      rcases List.mem_cons.mp hm with rfl | hm2
      · rw [List.filter_cons, if_pos (by simp)]
        rfl
      · have hns := rid_not_seen_of_mem_dedupFirstAux _ _ h hm2
        have hne : x.metadata.report_id ≠ h.metadata.report_id := by
          intro e
          exact hns (e ▸ List.mem_cons_self _ _)
        rw [List.filter_cons, if_neg (by simpa using hne)]
        exact ih _ h hm2

theorem head_filter_of_mem_dedupFirst (l : List Hit) (h : Hit)
    (hm : h ∈ dedupFirst l) :
    (l.filter (fun g => decide (g.metadata.report_id = h.metadata.report_id))).head? =
      some h :=
  head_filter_of_mem_dedupFirstAux l [] h hm

theorem dedupFirst_sublist (l : List Hit) : (dedupFirst l).Sublist l :=
  dedupFirstAux_sublist l []

theorem score_max_of_mem_dedupFirst (l : List Hit)
    (hs : l.Pairwise (fun a b => b.score ≤ a.score))
    (h : Hit) (hm : h ∈ dedupFirst l) :
    ∀ g ∈ l, g.metadata.report_id = h.metadata.report_id → g.score ≤ h.score := by
  intro g hg hrid
  have hhead := head_filter_of_mem_dedupFirst l h hm
  have hgf : g ∈ l.filter (fun x => decide (x.metadata.report_id = h.metadata.report_id)) :=
    List.mem_filter.mpr ⟨hg, by simpa using hrid⟩
  have hpf := hs.filter (fun x => decide (x.metadata.report_id = h.metadata.report_id))
  rcases hfl : l.filter (fun x => decide (x.metadata.report_id = h.metadata.report_id)) with
    _ | ⟨h0, rest⟩
  · rw [hfl] at hgf; simp at hgf
  · rw [hfl] at hhead hgf hpf
    have hh0 : h0 = h := by simpa using hhead
    subst hh0
    rcases List.mem_cons.mp hgf with rfl | hgr
    · exact le_refl _
    · exact (List.pairwise_cons.mp hpf).1 g hgr

theorem count_le_one_of_pairwise_ne (l : List Hit)
    (hl : l.Pairwise (fun a b => a.metadata.report_id ≠ b.metadata.report_id))
    (r : String) :
    (l.filter (fun h => decide (h.metadata.report_id = r))).length ≤ 1 := by
  induction l with
  | nil => simp
  | cons x t ih =>
    rcases List.pairwise_cons.mp hl with ⟨hx, ht⟩
    rw [List.filter_cons]
    by_cases hxr : x.metadata.report_id = r
    · rw [if_pos (by simpa using hxr)]
      have hnil : t.filter (fun h => decide (h.metadata.report_id = r)) = [] := by
        rw [List.filter_eq_nil_iff]
        intro b hb
        simp only [decide_eq_true_eq]
        exact fun e => hx b hb (hxr.trans e.symm)
      simp [hnil]
    · rw [if_neg (by simpa using hxr)]
      exact ih ht

theorem round4_mono {x y : ℚ} (h : x ≤ y) : round4 x ≤ round4 y := by
  unfold round4
  have h2 : round (x * 10000) ≤ round (y * 10000) := by
    rw [round_eq, round_eq]
    exact Int.floor_le_floor (by linarith)
  have h3 : ((round (x * 10000) : ℤ) : ℚ) ≤ ((round (y * 10000) : ℤ) : ℚ) := by
    exact_mod_cast h2
  exact div_le_div_of_nonneg_right h3 (by norm_num)

theorem round4_zero : round4 0 = 0 := by
  simp [round4]

theorem round4_top : round4 (21 / 20) = 21 / 20 := by
  have h : (21 : ℚ) / 20 * 10000 = ((10500 : ℤ) : ℚ) := by norm_num
  rw [round4, h, round_intCast]
  norm_num

theorem round4_bot : round4 (-(7 / 10)) = -(7 / 10) := by
  have h : (-(7 / 10) : ℚ) * 10000 = ((-7000 : ℤ) : ℚ) := by norm_num
  rw [round4, h, round_intCast]
  norm_num

theorem keywordOverlapScore_nonneg (qw : List String) (t : String) :
    0 ≤ keywordOverlapScore qw t := by
  unfold keywordOverlapScore
  split
  · exact le_refl 0
  · positivity

theorem keywordOverlapScore_le_one (qw : List String) (t : String) :
    keywordOverlapScore qw t ≤ 1 := by
  unfold keywordOverlapScore
  split
  · norm_num
  · next hlen =>
    rw [div_le_one (by exact_mod_cast Nat.pos_of_ne_zero (by omega))]
    exact_mod_cast List.countP_le_length _

theorem sectionBoost_cases (q s : String) :
    sectionBoost q s = 0 ∨ sectionBoost q s = 1 / 20 := by
  unfold sectionBoost
  dsimp only
  split
  · exact .inr rfl
  · split
    · exact .inr rfl
    · exact .inl rfl

theorem finalScore_bounds {s k b : ℚ} (hs0 : 0 ≤ s) (hs1 : s ≤ 1)
    (hk0 : 0 ≤ k) (hk1 : k ≤ 1) (hb : b = 0 ∨ b = 1 / 20) :
    0 ≤ finalScore s k b ∧ finalScore s k b ≤ 21 / 20 := by
  have hb0 : 0 ≤ b := by rcases hb with rfl | rfl <;> norm_num
  have hb1 : b ≤ 1 / 20 := by rcases hb with rfl | rfl <;> norm_num
  unfold finalScore
  constructor
  · calc (0 : ℚ) = round4 0 := round4_zero.symm
      _ ≤ _ := round4_mono (by linarith)
  · calc round4 (7 / 10 * s + 3 / 10 * k + b)
        ≤ round4 (21 / 20) := round4_mono (by linarith)
      _ = 21 / 20 := round4_top

theorem finalScore_bounds_general {s k b : ℚ} (hs0 : -1 ≤ s) (hs1 : s ≤ 1)
    (hk0 : 0 ≤ k) (hk1 : k ≤ 1) (hb : b = 0 ∨ b = 1 / 20) :
    -(7 / 10) ≤ finalScore s k b ∧ finalScore s k b ≤ 21 / 20 := by
  have hb0 : 0 ≤ b := by rcases hb with rfl | rfl <;> norm_num
  have hb1 : b ≤ 1 / 20 := by rcases hb with rfl | rfl <;> norm_num
  unfold finalScore
  constructor
  · calc (-(7 / 10) : ℚ) = round4 (-(7 / 10)) := round4_bot.symm
      _ ≤ _ := round4_mono (by linarith)
  · calc round4 (7 / 10 * s + 3 / 10 * k + b)
        ≤ round4 (21 / 20) := round4_mono (by linarith)
      _ = 21 / 20 := round4_top

theorem mem_of_mem_rerank {h : Hit} {hits : List Hit} {q : String} {n : Nat}
    (hm : h ∈ rerankAndDedup hits q n) : h ∈ rescoreAll hits q := by
  unfold rerankAndDedup at hm
  have h1 := List.mem_of_mem_take hm
  rw [mem_sortDesc] at h1
  have h2 := (dedupFirst_sublist _).subset h1
  rw [mem_sortDesc] at h2
  exact h2

theorem candidatesOf_rejected (u : Except Unit (List Hit))
    (fo : Option QueryFilter) (N : Nat) :
    candidatesOf ⟨.error (), u⟩ fo N = candidatesOf ⟨.ok [], u⟩ fo N := by
  cases fo <;> rfl

theorem candidatesOf_empty_store (fo : Option QueryFilter) (N : Nat) :
    candidatesOf ⟨.ok [], .ok []⟩ fo N = [] := by
  cases fo <;> rfl

theorem candidatesOf_blend (st : Store) (f : QueryFilter) (a : Hit)
    (t : List Hit) (N : Nat) (hok : st.filteredResult = Except.ok (a :: t))
    (hub : (a :: t).length < 3) (hN : (a :: t).length ≤ N) :
    candidatesOf st (some f) N =
      (a :: t) ++ ((unfilteredHitsOf st).filter
        (fun h => !(((a :: t).map (fun g => g.metadata.report_id)).contains
          h.metadata.report_id))).take (N - (a :: t).length) := by
  have hfh : filteredHitsOf st (some f) = a :: t := by
    unfold filteredHitsOf
    rw [hok]
    rfl
  unfold candidatesOf
  rw [hfh, if_pos hub]
  simp only [List.isEmpty_cons, Bool.false_eq_true, if_false]
  unfold pyTake
  rw [if_pos (by omega : (0 : Int) ≤ (N : Int) - (((a :: t).length : Nat) : Int))]
  have htn : ((N : Int) - (((a :: t).length : Nat) : Int)).toNat =
      N - (a :: t).length := by omega
  rw [htn]

/-! ## Claim theorems -/

/-- C10: the derived `has_injury` flag is 1 exactly when the cleaned injury
label differs from the literal string "Injury"; a raw injury-category value
longer than 60 characters becomes "Medical Treatment" and therefore counts as
`has_injury = 1`, while a value that title-cases to exactly "Injury" gets
`has_injury = 0`. -/
theorem has_injury_flag_spec (x : String) :
    (hasInjury x = 1 ↔ injuryClean x ≠ "Injury") ∧
    (60 < x.length → injuryClean x = "Medical Treatment" ∧ hasInjury x = 1) ∧
    (x.length ≤ 60 → pyTitle x = "Injury" → hasInjury x = 0) := by
  refine ⟨?_, ?_, ?_⟩
  · unfold hasInjury
    by_cases h : injuryClean x = "Injury" <;> simp [h]
  · intro hlen
    have h1 : injuryClean x = "Medical Treatment" := by
      unfold injuryClean
      rw [if_pos hlen]
    refine ⟨h1, ?_⟩
    unfold hasInjury
    rw [h1, if_neg (by decide)]
  · intro hlen ht
    have h1 : injuryClean x = "Injury" := by
      unfold injuryClean
      rw [if_neg (by omega)]
      exact ht
    unfold hasInjury
    rw [if_pos h1]

theorem has_injury_flag_spec_witness :
    (60 < ("exposure to hazardous chemical vapors requiring extended medical care" : String).length ∧
      hasInjury "exposure to hazardous chemical vapors requiring extended medical care" = 1) ∧
    (("injury" : String).length ≤ 60 ∧ pyTitle "injury" = "Injury" ∧
      hasInjury "injury" = 0) := by
  refine ⟨⟨by decide, ?_⟩, ⟨by decide, by decide, ?_⟩⟩
  · exact ((has_injury_flag_spec
      "exposure to hazardous chemical vapors requiring extended medical care").2.1
        (by decide)).2
  · exact (has_injury_flag_spec "injury").2.2 (by decide) (by decide)

/-- C3 counterexample: an existing collection with 0 chunks is reported by
`get_index_stats` with status "ready" (and chunk count 0), not with a
dedicated not-ready status distinct from "not_initialized". -/
theorem stats_zero_chunks_counterexample :
    (getIndexStats (some 0) []).status = "ready" ∧
    (getIndexStats (some 0) []).status ≠ "not_initialized" ∧
    (getIndexStats (some 0) []).chunks = 0 :=
  ⟨rfl, by decide, rfl⟩

/-- C3 amended: when the collection exists but holds 0 chunks,
`get_index_stats` reports status "ready" with `chunks = 0` (only a missing
collection yields the distinct "not_initialized" status), and `retrieve` on
such an empty index returns an empty hit list with the parsed facts, never an
error. -/
theorem stats_zero_chunks_amended :
    (∀ df : List IncidentRecord, (getIndexStats (some 0) df).status = "ready" ∧
      (getIndexStats (some 0) df).chunks = 0) ∧
    (∀ df : List IncidentRecord, (getIndexStats none df).status = "not_initialized") ∧
    (∀ (q : String) (n : Nat) (f : Option QueryFilter),
      retrieveModel (some ⟨.ok [], .ok []⟩) q n f true = .ok ([], (parseQuery q).2.2)) := by
  refine ⟨fun df => ⟨rfl, rfl⟩, fun df => rfl, ?_⟩
  intro q n f
  simp [retrieveModel, candidatesOf_empty_store]

/-- C5: `retrieve` errors exactly when the vector store is not initialized;
a store-rejected filtered query is handled locally as empty filtered hits, so
the call behaves exactly as if the filtered query had returned no hits (it
falls through to the unfiltered fallback) and no error is surfaced. -/
theorem retrieve_error_semantics :
    (∀ (q : String) (n : Nat) (f : Option QueryFilter) (ap : Bool),
      retrieveModel none q n f ap =
        .error "RAG index not initialized. Call initialize() first.") ∧
    (∀ (st : Store) (q : String) (n : Nat) (f : Option QueryFilter) (ap : Bool),
      ∃ out, retrieveModel (some st) q n f ap = .ok out) ∧
    (∀ (u : Except Unit (List Hit)) (q : String) (n : Nat)
      (f : Option QueryFilter) (ap : Bool),
      retrieveModel (some ⟨.error (), u⟩) q n f ap =
        retrieveModel (some ⟨.ok [], u⟩) q n f ap) := by
  refine ⟨fun q n f ap => rfl, ?_, ?_⟩
  · intro st q n f ap
    have hshape : ∀ (c : List Hit) (p : Parsed) (e : String) (m : Nat),
        ∃ out, (if c.isEmpty then (Except.ok ([], p) : Except String (List Hit × Parsed))
          else .ok (rerankAndDedup c e m, p)) = .ok out := by
      intro c p e m
      by_cases h : c.isEmpty <;> simp [h]
    simp only [retrieveModel]
    exact hshape _ _ _ _
  · intro u q n f ap
    simp only [retrieveModel, candidatesOf_rejected]

unseal List.mergeSort List.merge in
/-- C4 counterexample: the query "2023 2023" mentions exactly one distinct
year (repeated), has no comparison intent, yet `parse_query` produces no
filter at all and records no `year` fact — the code tests the raw match count
`len(years) == 1`, not the distinct count. -/
theorem parse_repeated_year_counterexample :
    isComparison (strLower "2023 2023") = false ∧
    (parseQuery "2023 2023").2.1 = none ∧
    (parseQuery "2023 2023").2.2.year = none ∧
    (parseQuery "2023 2023").2.2.yearsMentioned = [2023] := by
  refine ⟨by decide, by decide, by decide, by decide⟩

/-- C4 amended: for a query without comparison intent, the year equality
predicate (and the `year` fact) is added exactly when the year pattern matches
once in the query — a single distinct year repeated several times yields no
year filter; all distinct years mentioned are always recorded, sorted, in
`years_mentioned`. -/
theorem parse_single_match_year_filter (query : String) (y : String)
    (hc : isComparison (strLower query) = false)
    (hy : findYears (strLower query) = [y]) :
    FilterAtom.year y ∈ filterAtoms (parseQuery query).2.1 ∧
    (parseQuery query).2.2.year = some y ∧
    (parseQuery query).2.2.yearsMentioned =
      sortedDistinct ((findYears (strLower query)).map yearToNat) := by
  unfold parseQuery
  simp [hc, hy, filterAtoms_mkFilter]

theorem parse_single_match_year_filter_witness :
    isComparison (strLower "incidents in 2023") = false ∧
    findYears (strLower "incidents in 2023") = ["2023"] ∧
    FilterAtom.year "2023" ∈ filterAtoms (parseQuery "incidents in 2023").2.1 ∧
    (parseQuery "incidents in 2023").2.2.year = some "2023" := by
  have h := parse_single_match_year_filter "incidents in 2023" "2023"
    (by decide) (by decide)
  exact ⟨by decide, by decide, h.1, h.2.1⟩

/-- C8: a query containing "compare" and two distinct years yields both years
in `years_mentioned` and no filter at all — comparison intent suppresses all
equality filtering (location, severity and year predicates alike). -/
theorem parse_comparison_suppresses_filters (query : String) (y1 y2 : Nat)
    (hc : strHasSub "compare" (strLower query) = true)
    (hne : y1 ≠ y2)
    (h1 : y1 ∈ (findYears (strLower query)).map yearToNat)
    (h2 : y2 ∈ (findYears (strLower query)).map yearToNat) :
    (parseQuery query).2.1 = none ∧
    y1 ∈ (parseQuery query).2.2.yearsMentioned ∧
    y2 ∈ (parseQuery query).2.2.yearsMentioned := by
  have hcmp : isComparison (strLower query) = true := by
    unfold isComparison COMPARISON_KEYWORDS
    simp [hc]
  unfold parseQuery
  simp only [hcmp, if_true]
  rcases hys : findYears (strLower query) with _ | ⟨a, _ | ⟨b, t⟩⟩
  · rw [hys] at h1
    simp at h1
  · rw [hys] at h1 h2
    simp only [List.map_cons, List.map_nil, List.mem_singleton] at h1 h2
    exact absurd (h1.trans h2.symm) hne
  · rw [hys] at h1 h2
    simp only [mkFilter]
    refine ⟨rfl, ?_, ?_⟩
    · rw [mem_sortedDistinct]
      exact h1
    · rw [mem_sortedDistinct]
      exact h2

/-- C6: for every normalized record and each (section label, source field)
pair of the four fixed sections, the chunk builder emits a chunk with the
deterministic id `rec<report_id>_<field>` if and only if the stripped
narrative field has length at least 20. -/
theorem chunk_emitted_iff_long_enough (r : IncidentRecord) (sl col : String)
    (hmem : (sl, col) ∈ SECTIONS) :
    (∃ c ∈ recordChunks r, c.chunk_id = "rec" ++ r.report_id ++ "_" ++ col) ↔
      20 ≤ (pyStrip (sectionField r col)).length := by
  constructor
  · rintro ⟨c, hc, hid⟩
    rcases List.mem_filterMap.mp hc with ⟨p, hp, hfc⟩
    unfold chunkFor at hfc
    by_cases hl : (pyStrip (sectionField r p.2)).length < 20
    · rw [if_pos hl] at hfc
      exact absurd hfc (by simp)
    · rw [if_neg hl] at hfc
      have hcid : c.chunk_id = "rec" ++ r.report_id ++ "_" ++ p.2 :=
        (congrArg Chunk.chunk_id (Option.some.inj hfc)).symm
      have heq : "rec" ++ r.report_id ++ "_" ++ p.2 =
          "rec" ++ r.report_id ++ "_" ++ col := by
        rw [← hcid, hid]
      have hcol : p.2 = col := string_append_cancel_left heq
      rw [← hcol]
      omega
  · intro hlen
    have hne : ¬ (pyStrip (sectionField r (sl, col).2)).length < 20 := by
      simpa using (by omega : ¬ (pyStrip (sectionField r col)).length < 20)
    obtain ⟨c, hc⟩ : ∃ c, chunkFor r (sl, col) = some c := by
      unfold chunkFor
      rw [if_neg hne]
      exact ⟨_, rfl⟩
    refine ⟨c, List.mem_filterMap.mpr ⟨(sl, col), hmem, hc⟩, ?_⟩
    unfold chunkFor at hc
    rw [if_neg hne] at hc
    exact (congrArg Chunk.chunk_id (Option.some.inj hc)).symm

theorem chunk_emitted_iff_long_enough_witness :
    (("What Happened", "what_happened") ∈ SECTIONS) ∧
    ((∃ c ∈ recordChunks sampleRecord,
        c.chunk_id = "rec" ++ sampleRecord.report_id ++ "_" ++ "what_happened") ↔
      20 ≤ (pyStrip (sectionField sampleRecord "what_happened")).length) :=
  ⟨by decide, chunk_emitted_iff_long_enough sampleRecord "What Happened"
    "what_happened" (by decide)⟩

/-- C7: the reranked final score `round4(0.70*sem + 0.30*kw + boost)` is
monotonically nondecreasing in the semantic score and in the keyword score,
the other component and the section boost held fixed. -/
theorem final_score_monotone :
    (∀ (s1 s2 k b : ℚ), s1 ≤ s2 → finalScore s1 k b ≤ finalScore s2 k b) ∧
    (∀ (k1 k2 s b : ℚ), k1 ≤ k2 → finalScore s k1 b ≤ finalScore s k2 b) := by
  constructor
  · intro s1 s2 k b hs
    unfold finalScore
    exact round4_mono (by linarith)
  · intro k1 k2 s b hk
    unfold finalScore
    exact round4_mono (by linarith)

unseal Rat.mul Rat.add Rat.inv Rat.sub in
theorem final_score_monotone_witness :
    ((0 : ℚ) ≤ 9 / 10 ∧
      finalScore 0 (1 / 2) (1 / 20) ≤ finalScore (9 / 10) (1 / 2) (1 / 20)) ∧
    ((1 : ℚ) / 4 ≤ 1 / 2 ∧
      finalScore (9 / 10) (1 / 4) 0 ≤ finalScore (9 / 10) (1 / 2) 0) :=
  ⟨⟨by decide, final_score_monotone.1 0 (9 / 10) (1 / 2) (1 / 20) (by decide)⟩,
   ⟨by decide, final_score_monotone.2 (1 / 4) (1 / 2) (9 / 10) 0 (by decide)⟩⟩

unseal Rat.mul Rat.add Rat.inv Rat.sub List.mergeSort List.merge in
/-- C9 counterexample: the store's cosine distance ranges over [0, 2] and is
never clamped, so a candidate at the legitimate distance 3/2 is reported with
similarity `1 − 3/2 = −1/2`, and the final score it receives from the
rerank-and-dedup stage of `retrieve` is `round4(0.70 × (−1/2)) = −0.35 < 0`:
a returned score below 0, refuting "never negative". -/
theorem rerank_negative_score_counterexample :
    ((0 : ℚ) ≤ 3 / 2 ∧ (3 : ℚ) / 2 ≤ 2) ∧
    sampleNegHit.score = 1 - 3 / 2 ∧
    (rerankAndDedup [sampleNegHit] "incident" 1).map Hit.score = [-(7 / 20)] ∧
    (retrieveModel (some ⟨.ok [], .ok [sampleNegHit]⟩) "incident" 1 none
      false).toOption.map (fun p => p.1.map Hit.score) = some [-(7 / 20)] ∧
    (-(7 / 20) : ℚ) < 0 := by
  exact ⟨⟨by decide, by decide⟩, by decide, by decide, by decide, by decide⟩

/-- C9 amended: with the store reporting similarity as `1 − distance` for a
cosine distance in [0, 2] — so a semantic score in [−1, 1] — every hit
returned by the rerank-and-dedup stage has a final score in [−0.70, 1.05];
it never exceeds 1.05, and it is also never negative (lies in [0, 1.05])
whenever every candidate's semantic score is nonnegative (distance ≤ 1). -/
theorem retrieve_scores_bounded_amended (hits : List Hit) (query : String)
    (n : Nat) :
    ((∀ g ∈ hits, -1 ≤ g.score ∧ g.score ≤ 1) →
      ∀ h ∈ rerankAndDedup hits query n,
        -(7 / 10) ≤ h.score ∧ h.score ≤ 21 / 20) ∧
    ((∀ g ∈ hits, 0 ≤ g.score ∧ g.score ≤ 1) →
      ∀ h ∈ rerankAndDedup hits query n,
        0 ≤ h.score ∧ h.score ≤ 21 / 20) := by
  constructor
  · intro hin h hm
    have hS := mem_of_mem_rerank hm
    unfold rescoreAll at hS
    rcases List.mem_map.mp hS with ⟨g, hg, rfl⟩
    unfold rescoreHit
    exact finalScore_bounds_general (hin g hg).1 (hin g hg).2
      (keywordOverlapScore_nonneg _ _) (keywordOverlapScore_le_one _ _)
      (sectionBoost_cases _ _)
  · intro hin h hm
    have hS := mem_of_mem_rerank hm
    unfold rescoreAll at hS
    rcases List.mem_map.mp hS with ⟨g, hg, rfl⟩
    unfold rescoreHit
    exact finalScore_bounds (hin g hg).1 (hin g hg).2
      (keywordOverlapScore_nonneg _ _) (keywordOverlapScore_le_one _ _)
      (sectionBoost_cases _ _)

unseal Rat.mul Rat.add Rat.inv Rat.sub in
theorem retrieve_scores_bounded_amended_witness :
    ((∀ g ∈ [sampleNegHit], -1 ≤ g.score ∧ g.score ≤ 1) ∧
      (∀ h ∈ rerankAndDedup [sampleNegHit] "incident" 1,
        -(7 / 10) ≤ h.score ∧ h.score ≤ 21 / 20)) ∧
    ((∀ g ∈ [sampleHitA, sampleHitC], 0 ≤ g.score ∧ g.score ≤ 1) ∧
      (∀ h ∈ rerankAndDedup [sampleHitA, sampleHitC] "alpha report" 2,
        0 ≤ h.score ∧ h.score ≤ 21 / 20)) :=
  ⟨⟨by decide, (retrieve_scores_bounded_amended [sampleNegHit] "incident" 1).1
      (by decide)⟩,
   ⟨by decide, (retrieve_scores_bounded_amended [sampleHitA, sampleHitC]
      "alpha report" 2).2 (by decide)⟩⟩

/-- C1: when a filter is present and the filtered query returns at least 1
but fewer than 3 hits, the candidate pool handed to reranking starts with the
filtered hits in priority order (so it is a superset by record id of the
filtered hits — none is dropped), continues with unfiltered hits whose record
id is not already present, and is filled up to the over-fetch bound
`min(n_results * 3, 50)`. -/
theorem retrieve_blend_preserves_filtered
    (st : Store) (f : QueryFilter) (fh : List Hit) (nResults : Nat)
    (hok : st.filteredResult = Except.ok fh)
    (hlb : 1 ≤ fh.length) (hub : fh.length < 3) (hn : 1 ≤ nResults) :
    ((candidatesOf st (some f) (min (nResults * 3) 50)).take fh.length = fh) ∧
    (∀ h ∈ fh, h.metadata.report_id ∈
      (candidatesOf st (some f) (min (nResults * 3) 50)).map
        (fun g => g.metadata.report_id)) ∧
    (∀ h ∈ (candidatesOf st (some f) (min (nResults * 3) 50)).drop fh.length,
      h ∈ unfilteredHitsOf st ∧
      h.metadata.report_id ∉ fh.map (fun g => g.metadata.report_id)) ∧
    ((candidatesOf st (some f) (min (nResults * 3) 50)).length =
      min (min (nResults * 3) 50)
        (fh.length + ((unfilteredHitsOf st).filter
          (fun h => !((fh.map (fun g => g.metadata.report_id)).contains
            h.metadata.report_id))).length)) := by
  have hN3 : 3 ≤ min (nResults * 3) 50 := by omega
  rcases fh with _ | ⟨a, t⟩
  · simp at hlb
  have hpool := candidatesOf_blend st f a t (min (nResults * 3) 50) hok hub
    (by omega)
  refine ⟨?_, ?_, ?_, ?_⟩
  · rw [hpool, List.take_left]
  · intro h hh
    rw [hpool]
    exact List.mem_map.mpr ⟨h, List.mem_append_left _ hh, rfl⟩
  · intro h hh
    rw [hpool, List.drop_left] at hh
    have h2 := List.mem_of_mem_take hh
    rcases List.mem_filter.mp h2 with ⟨hu, hpred⟩
    refine ⟨hu, ?_⟩
    intro hmem
    rw [Bool.not_eq_eq_eq_not, Bool.not_true] at hpred
    simp only [List.contains] at hpred
    exact absurd (List.elem_eq_true_of_mem hmem) (by rw [hpred]; decide)
  · rw [hpool, List.length_append, List.length_take]
    omega

unseal Rat.mul Rat.add Rat.inv Rat.sub in
theorem retrieve_blend_preserves_filtered_witness :
    (sampleStore.filteredResult = Except.ok [sampleHitU1] ∧
      1 ≤ ([sampleHitU1] : List Hit).length ∧
      ([sampleHitU1] : List Hit).length < 3 ∧ 1 ≤ 1) ∧
    ((candidatesOf sampleStore (some (.single (.year "2023")))
        (min (1 * 3) 50)).take ([sampleHitU1] : List Hit).length = [sampleHitU1]) ∧
    (∀ h ∈ ([sampleHitU1] : List Hit), h.metadata.report_id ∈
      (candidatesOf sampleStore (some (.single (.year "2023")))
        (min (1 * 3) 50)).map (fun g => g.metadata.report_id)) := by
  have h := retrieve_blend_preserves_filtered sampleStore
    (.single (.year "2023")) [sampleHitU1] 1 (by rfl) (by decide) (by decide)
    (by decide)
  exact ⟨⟨rfl, by decide, by decide, by decide⟩, h.1, h.2.1⟩

/-- C2: the rerank-and-dedup output never contains two chunks with the same
`report_id`; every output chunk attains the maximum final score among the
rescored candidates sharing its record id, and it is the first hit with that
id in the score-descending stable sort (ties broken by encounter order,
first seen wins). -/
theorem rerank_dedup_unique_best (hits : List Hit) (query : String) (n : Nat) :
    (∀ r : String,
      ((rerankAndDedup hits query n).filter
        (fun h => decide (h.metadata.report_id = r))).length ≤ 1) ∧
    (∀ h ∈ rerankAndDedup hits query n,
      (∀ g ∈ rescoreAll hits query,
        g.metadata.report_id = h.metadata.report_id → g.score ≤ h.score) ∧
      ((sortDesc (rescoreAll hits query)).filter
        (fun g => decide (g.metadata.report_id = h.metadata.report_id))).head? =
          some h) := by
  constructor
  · intro r
    have h1 : ((rerankAndDedup hits query n).filter
        (fun h => decide (h.metadata.report_id = r))).length ≤
        ((sortDesc (dedupFirst (sortDesc (rescoreAll hits query)))).filter
          (fun h => decide (h.metadata.report_id = r))).length := by
      unfold rerankAndDedup
      exact ((List.take_sublist _ _).filter _).length_le
    have h2 : ((sortDesc (dedupFirst (sortDesc (rescoreAll hits query)))).filter
        (fun h => decide (h.metadata.report_id = r))).length =
        ((dedupFirst (sortDesc (rescoreAll hits query))).filter
          (fun h => decide (h.metadata.report_id = r))).length := by
      rw [← List.countP_eq_length_filter, ← List.countP_eq_length_filter]
      exact (List.mergeSort_perm _ _).countP_eq _
    have h3 := count_le_one_of_pairwise_ne _
      (dedupFirst_pairwise (sortDesc (rescoreAll hits query))) r
    omega
  · intro h hm
    have hmD : h ∈ dedupFirst (sortDesc (rescoreAll hits query)) := by
      have h1 := List.mem_of_mem_take (by exact hm)
      exact mem_sortDesc.mp h1
    refine ⟨?_, head_filter_of_mem_dedupFirst _ h hmD⟩
    intro g hg hrid
    exact score_max_of_mem_dedupFirst (sortDesc (rescoreAll hits query))
      (sortDesc_pairwise _) h hmD g (mem_sortDesc.mpr hg) hrid

unseal Rat.mul Rat.add Rat.inv Rat.sub List.mergeSort List.merge in
theorem rerank_dedup_unique_best_witness :
    ((rerankAndDedup [sampleHitA, sampleHitB, sampleHitC] "alpha report" 2).filter
      (fun h => decide (h.metadata.report_id = "1"))).length ≤ 1 ∧
    sampleWinner ∈ rerankAndDedup [sampleHitA, sampleHitB, sampleHitC]
      "alpha report" 2 ∧
    (∀ g ∈ rescoreAll [sampleHitA, sampleHitB, sampleHitC] "alpha report",
      g.metadata.report_id = sampleWinner.metadata.report_id →
        g.score ≤ sampleWinner.score) := by
  refine ⟨(rerank_dedup_unique_best [sampleHitA, sampleHitB, sampleHitC]
      "alpha report" 2).1 "1", by decide, ?_⟩
  intro g hg he
  exact ((rerank_dedup_unique_best [sampleHitA, sampleHitB, sampleHitC]
    "alpha report" 2).2 sampleWinner (by decide)).1 g hg he

theorem parse_comparison_suppresses_filters_witness :
    strHasSub "compare" (strLower "compare 2014 2015") = true ∧
    (2014 : Nat) ≠ 2015 ∧
    2014 ∈ (findYears (strLower "compare 2014 2015")).map yearToNat ∧
    2015 ∈ (findYears (strLower "compare 2014 2015")).map yearToNat ∧
    (parseQuery "compare 2014 2015").2.1 = none ∧
    2014 ∈ (parseQuery "compare 2014 2015").2.2.yearsMentioned ∧
    2015 ∈ (parseQuery "compare 2014 2015").2.2.yearsMentioned := by
  have h := parse_comparison_suppresses_filters "compare 2014 2015" 2014 2015
    (by decide) (by decide) (by decide) (by decide)
  exact ⟨by decide, by decide, by decide, by decide, h.1, h.2.1, h.2.2⟩

end Rag
